import Mathlib

/-!
Shallow embedding of the ledger / balance logic of the whatsapp-balance-manager
backend (Express + Mongoose).  Amounts are modelled as exact integers
(the money algebra of this code uses only `+`, `-` and comparisons, on which
JavaScript numbers behave exactly like integers), timestamps as integers
(milliseconds), document ids as sequentially assigned naturals (Mongo
ObjectIds are opaque and unique; only uniqueness matters here).  A request
amount is `Option Int`: `none` stands for a payload whose `Number(...)`
conversion yields `NaN` (missing or non-numeric).
-/

namespace BalanceManager

/-- Transaction `type` enum of `backend/models/Transaction.js`. -/
inductive TxType where
  | credit
  | debit
  | loan
  | repay
deriving DecidableEq, Repr

/-- One document of the `transactions` collection
(`backend/models/Transaction.js`): owner id, discriminating type, amount,
reason/note, date, and the optional point-in-time balance snapshots
(`default: null` in the schema, modelled as `Option`). -/
structure Transaction where
  id : Nat
  friend : Nat
  type : TxType
  amount : Int
  reason : String
  note : Option String
  date : Int
  previousBalance : Option Int
  newBalance : Option Int
deriving DecidableEq, Repr

/-- One document of the `friends` collection (`backend/models/Friend.js`). -/
structure Friend where
  id : Nat
  name : String
  whatsapp : String
  savedAmount : Int
  totalBalance : Int
  owedAmount : Int
  lastUpdatedAt : Int
deriving DecidableEq, Repr

/-- The two collections of the document store, plus fresh-id counters. -/
structure DB where
  friends : List Friend
  txs : List Transaction
  nextFriendId : Nat
  nextTxId : Nat
deriving DecidableEq, Repr

/-- Model of `Friend.findById`. -/
def findFriend (fid : Nat) (db : DB) : Option Friend :=
  db.friends.find? (fun f => f.id == fid)

/-- Model of `Transaction.findById` / `Loan.findById`. -/
def findTx (txId : Nat) (db : DB) : Option Transaction :=
  db.txs.find? (fun t => t.id == txId)

/-- The `loanSum` of the aggregation in `recalcOwed` (`routes/loans.js` lines
15-27): the sum of `amount` over the friend's transactions with
`type = 'loan'`. -/
def loanSum (fid : Nat) (txs : List Transaction) : Int :=
  ((txs.filter (fun t => t.friend == fid && t.type == TxType.loan)).map
    (fun t => t.amount)).sum

/-- The `repaySum` of the aggregation in `recalcOwed`. -/
def repaySum (fid : Nat) (txs : List Transaction) : Int :=
  ((txs.filter (fun t => t.friend == fid && t.type == TxType.repay)).map
    (fun t => t.amount)).sum

/-- The value the `recalcOwed` aggregation computes: `loanSum - repaySum`
over the friend's loan/repay transactions (`0` when nothing matches, which
coincides with the empty sums). -/
def ledgerOwed (fid : Nat) (txs : List Transaction) : Int :=
  loanSum fid txs - repaySum fid txs

/-- Mongoose `findById` + mutate + `save()` (equivalently `findByIdAndUpdate`):
apply `u` to the (unique) friend document with id `fid`, leave others alone. -/
def updateById (fid : Nat) (u : Friend → Friend) (friends : List Friend) :
    List Friend :=
  friends.map fun f => if f.id = fid then u f else f

/-- Model of `Friend.findByIdAndUpdate` writing `owedAmount` and `lastUpdatedAt`. -/
def setOwed (fid : Nat) (v : Int) (now : Int) (friends : List Friend) :
    List Friend :=
  updateById fid (fun f => { f with owedAmount := v, lastUpdatedAt := now })
    friends

/-- Model of `recalcOwed` of `backend/routes/loans.js` (lines 15-27): recompute the
friend's `owedAmount` from the transaction log and store it, replacing the
previous value. -/
def recalcOwed (now : Int) (fid : Nat) (db : DB) : DB :=
  { db with friends := setOwed fid (ledgerOwed fid db.txs) now db.friends }

/-- Outcome of an awaited provider call (`sendWhatsAppMessage`). -/
inductive SendOutcome where
  | delivered
  | failed
deriving DecidableEq, Repr

/-- Response of `POST /api/loans` (`routes/loans.js` lines 33-83). -/
inductive LoanCreateResult where
  | invalidPayload
  | friendNotFound
  | notConfigured
  | created (send : Option SendOutcome)
deriving DecidableEq, Repr

/-- Handler `POST /api/loans` (`routes/loans.js` lines 33-83): validate, write the
`type='loan'` transaction with owed-amount snapshots, run `recalcOwed`, then
handle the optional notification.  `configured` models whether
`ULTRAMSG_INSTANCE`/`ULTRAMSG_TOKEN` are set; `sendOk` models the awaited
provider call's outcome.  Note the 503 unconfigured branch runs after the
loan has been created and recomputed. -/
def createLoan (now : Int) (fid : Nat) (amount : Option Int) (reason : String)
    (sendMessage configured sendOk : Bool) (db : DB) : DB × LoanCreateResult :=
  match amount with
  | none => (db, .invalidPayload)
  | some a =>
    if a ≤ 0 then (db, .invalidPayload) else
    match findFriend fid db with
    | none => (db, .friendNotFound)
    | some friend =>
      let prev := friend.owedAmount
      let tx : Transaction :=
        { id := db.nextTxId, friend := friend.id, type := TxType.loan,
          amount := a, reason := reason, note := none, date := now,
          previousBalance := some prev, newBalance := some (prev + a) }
      let db2 := recalcOwed now friend.id
        { db with txs := tx :: db.txs, nextTxId := db.nextTxId + 1 }
      if sendMessage then
        if configured then
          (db2, .created (some (if sendOk then SendOutcome.delivered
                                else SendOutcome.failed)))
        else (db2, .notConfigured)
      else (db2, .created none)

/-- Response of `PATCH /api/loans/:id`. -/
inductive PatchResult where
  | loanNotFound
  | invalidAmount
  | invalidIncrement
  | ok
deriving DecidableEq, Repr

/-- Handler `PATCH /api/loans/:id` (`routes/loans.js` lines 88-112): an absolute
`amount` (rejected when `NaN` or negative) takes precedence over a signed
`increment` (rejected only when `NaN`, with no bound on the result); the
reason is updated when supplied; `recalcOwed` follows.  Body fields are
`Option (Option Int)`: outer `none` = field absent, inner `none` = `NaN`. -/
def patchLoan (now : Int) (txId : Nat) (bodyAmount bodyIncrement : Option (Option Int))
    (bodyReason : Option String) (db : DB) : DB × PatchResult :=
  match findTx txId db with
  | none => (db, .loanNotFound)
  | some loan =>
    let newAmount : Except PatchResult Int :=
      match bodyAmount with
      | some none => .error .invalidAmount
      | some (some q) => if q < 0 then .error .invalidAmount else .ok q
      | none =>
        match bodyIncrement with
        | some none => .error .invalidIncrement
        | some (some i) => .ok (loan.amount + i)
        | none => .ok loan.amount
    match newAmount with
    | .error e => (db, e)
    | .ok v =>
      let newReason := bodyReason.getD loan.reason
      let txs2 := db.txs.map fun t =>
        if t.id = txId then { t with amount := v, reason := newReason } else t
      (recalcOwed now loan.friend { db with txs := txs2 }, .ok)

/-- Response of `DELETE /api/loans/:id`. -/
inductive DeleteResult where
  | loanNotFound
  | ok
deriving DecidableEq, Repr

/-- Handler `DELETE /api/loans/:id` (`routes/loans.js` lines 117-131): remove the
transaction, then `recalcOwed` for its owning friend. -/
def deleteLoan (now : Int) (txId : Nat) (db : DB) : DB × DeleteResult :=
  match findTx txId db with
  | none => (db, .loanNotFound)
  | some loan =>
    (recalcOwed now loan.friend
      { db with txs := db.txs.filter (fun t => !(t.id == txId)) }, .ok)

/-- Response of the friends-router loan / repay handlers. -/
inductive MutResult where
  | invalidAmount
  | friendNotFound
  | overRepayment
  | ok
deriving DecidableEq, Repr

/-- Handler `POST /:id/loan` of `backend/routes/friends.js` (second document of
`routes/loans.js`, lines 243-298): writes a `type='loan'` transaction with
owed snapshots and updates `owedAmount` in place
(`friend.owedAmount = prevOwed + amount`), without invoking `recalcOwed`. -/
def recordLoan (now : Int) (fid : Nat) (amount : Option Int)
    (note : Option String) (db : DB) : DB × MutResult :=
  match findFriend fid db with
  | none => (db, .friendNotFound)
  | some friend =>
    match amount with
    | none => (db, .invalidAmount)
    | some a =>
      if a ≤ 0 then (db, .invalidAmount) else
      let prevOwed := friend.owedAmount
      let newOwed := prevOwed + a
      let tx : Transaction :=
        { id := db.nextTxId, friend := friend.id, type := TxType.loan,
          amount := a, reason := "", note := some (note.getD "Loan recorded"),
          date := now, previousBalance := some prevOwed,
          newBalance := some newOwed }
      ({ db with txs := tx :: db.txs, nextTxId := db.nextTxId + 1,
                 friends := setOwed friend.id newOwed now db.friends }, .ok)

/-- Handler `POST /:id/repay` of `backend/routes/friends.js` (second document of
`routes/loans.js`, lines 301-336): validates the amount, rejects with 400
when `prevOwed - amount < 0` (over-repayment) before any write, otherwise
writes the `type='repay'` transaction and sets `owedAmount` to the new
value in place. -/
def repay (now : Int) (fid : Nat) (amount : Option Int) (note : Option String)
    (db : DB) : DB × MutResult :=
  match findFriend fid db with
  | none => (db, .friendNotFound)
  | some friend =>
    match amount with
    | none => (db, .invalidAmount)
    | some a =>
      if a ≤ 0 then (db, .invalidAmount) else
      let prevOwed := friend.owedAmount
      let newOwed := prevOwed - a
      if newOwed < 0 then (db, .overRepayment) else
      let tx : Transaction :=
        { id := db.nextTxId, friend := friend.id, type := TxType.repay,
          amount := a, reason := "", note := some (note.getD "Repayment"),
          date := now, previousBalance := some prevOwed,
          newBalance := some newOwed }
      ({ db with txs := tx :: db.txs, nextTxId := db.nextTxId + 1,
                 friends := setOwed friend.id newOwed now db.friends }, .ok)

/-- Milliseconds per calendar day. -/
def dayMs : Int := 86400000

/-- Local midnight of the instant `now` under fixed UTC offset `tz`
(milliseconds): models `new Date(); d.setHours(0,0,0,0)` in the server's local
timezone.  `Int.fdiv` is floor division. -/
def dayStart (tz now : Int) : Int := dayMs * ((now + tz).fdiv dayMs) - tz

/-- Local `23:59:59.999` of the same day: `d.setHours(23,59,59,999)`. -/
def dayEnd (tz now : Int) : Int := dayStart tz now + (dayMs - 1)

/-- Model of `todaysSpent` of `server.js` (first document of `src/unnamed/part_000`,
lines 161-166): `Transaction.find({ friend, date: { $gte: start, $lte: end }})`
summed over `amount`.  The query filters on the friend and the closed day
window only — it has no `type` condition. -/
def todaysSpent (tz : Int) (fid : Nat) (now : Int)
    (txs : List Transaction) : Int :=
  ((txs.filter (fun t => t.friend == fid &&
      decide (dayStart tz now ≤ t.date) &&
      decide (t.date ≤ dayEnd tz now))).map (fun t => t.amount)).sum

/-- What §4.2 / §8 of the spec describe, in the spec's words: the sum of the
friend's *debit* amounts (only debits) inside the local-day window.  Used to
compare the spec's sentence with the implemented `todaysSpent`. -/
def todaysSpentSpec (tz : Int) (fid : Nat) (now : Int)
    (txs : List Transaction) : Int :=
  ((txs.filter (fun t => t.friend == fid && t.type == TxType.debit &&
      decide (dayStart tz now ≤ t.date) &&
      decide (t.date ≤ dayEnd tz now))).map (fun t => t.amount)).sum

/-- Response of `POST /api/friends/:friendId/deduct`. -/
inductive DeductResult where
  | invalidAmount
  | friendNotFound
  | ok (todaySpent : Int)
deriving DecidableEq, Repr

/-- Handler `POST /api/friends/:friendId/deduct` of `server.js` (`src/unnamed/
part_000`; the timezone-fix document at lines 548-604 writes the transaction
with an explicit `type: 'debit'`; the other document leaves the type to the
schema default).  Validates the amount, then the friend; writes a debit
transaction carrying no balance snapshots (`previousBalance`/`newBalance`
stay at their `null` schema default); sets
`totalBalance := previousBalance - amt` with no clamping and
`lastUpdatedAt := tx.date`; computes `todaysSpent` after the save; the
notification is dispatched fire-and-forget (`sendOk` is the background
outcome and is deliberately unused). -/
def deduct (now tz : Int) (fid : Nat) (amount : Option Int)
    (note : Option String) (sendOk : Bool) (db : DB) : DB × DeductResult :=
  match amount with
  | none => (db, .invalidAmount)
  | some a =>
    if a ≤ 0 then (db, .invalidAmount) else
    match findFriend fid db with
    | none => (db, .friendNotFound)
    | some friend =>
      let previousBalance := friend.totalBalance
      let tx : Transaction :=
        { id := db.nextTxId, friend := friend.id, type := TxType.debit,
          amount := a, reason := "", note := note, date := now,
          previousBalance := none, newBalance := none }
      let friends2 := updateById friend.id
        (fun f => { f with totalBalance := previousBalance - a,
                           lastUpdatedAt := tx.date }) db.friends
      let db1 : DB := { db with friends := friends2, txs := tx :: db.txs,
                                nextTxId := db.nextTxId + 1 }
      (db1, .ok (todaysSpent tz friend.id now db1.txs))

/-- Response of `DELETE /api/friends/:id`. -/
inductive DeleteFriendResult where
  | friendNotFound
  | ok
deriving DecidableEq, Repr

/-- Handler `DELETE /api/friends/:id` of `server.js` (`src/unnamed/part_000` lines
372-387): after the friend resolves, `Transaction.deleteMany({friend: id})`
then `Friend.findByIdAndDelete(id)`. -/
def deleteFriend (fid : Nat) (db : DB) : DB × DeleteFriendResult :=
  match findFriend fid db with
  | none => (db, .friendNotFound)
  | some _ =>
    ({ db with txs := db.txs.filter (fun t => !(t.friend == fid)),
               friends := db.friends.filter (fun f => !(f.id == fid)) }, .ok)

/-- JavaScript `x || y` on numbers (`x` known non-`NaN`). -/
def jsOr (x y : Int) : Int := if x = 0 then y else x

/-- JavaScript `Number(v) || y` where `v` may be absent (`Number(undefined)`
is `NaN`, and `NaN || y = y`). -/
def numOr (v : Option Int) (y : Int) : Int :=
  match v with
  | none => y
  | some q => jsOr q y

/-- Handler `POST /api/friends` of `server.js`: a new friend starts with
`owedAmount = 0` (schema default) and no transactions. -/
def createFriend (now : Int) (name whatsapp : String)
    (totalBalance savedAmount : Option Int) (db : DB) : DB :=
  if name = "" ∨ whatsapp = "" then db else
  let initSaved :=
    match savedAmount with
    | some s => s
    | none => numOr totalBalance 0
  let f : Friend :=
    { id := db.nextFriendId, name := name, whatsapp := whatsapp,
      savedAmount := initSaved,
      totalBalance := numOr totalBalance (jsOr initSaved 0),
      owedAmount := 0, lastUpdatedAt := now }
  { db with friends := f :: db.friends, nextFriendId := db.nextFriendId + 1 }

/-- Handler `PATCH /api/friends/:id/saved`. -/
def setSaved (fid : Nat) (v : Int) (db : DB) : DB :=
  { db with friends :=
      updateById fid (fun f => { f with savedAmount := v }) db.friends }

/-- Handler `PATCH /api/friends/:id/balance`: sets `totalBalance` directly, no ledger
entry. -/
def setBalance (now : Int) (fid : Nat) (v : Int) (db : DB) : DB :=
  { db with friends :=
      updateById fid (fun f => { f with totalBalance := v,
                                        lastUpdatedAt := now }) db.friends }

/-- One state-mutating API operation of the backend (parameters as the
handlers receive them). -/
inductive Op where
  | createFriend (name whatsapp : String) (totalBalance savedAmount : Option Int)
  | setSaved (fid : Nat) (v : Int)
  | setBalance (fid : Nat) (v : Int)
  | deduct (fid : Nat) (amount : Option Int) (note : Option String) (sendOk : Bool)
  | recordLoan (fid : Nat) (amount : Option Int) (note : Option String)
  | repay (fid : Nat) (amount : Option Int) (note : Option String)
  | createLoan (fid : Nat) (amount : Option Int) (reason : String)
      (sendMessage configured sendOk : Bool)
  | patchLoan (txId : Nat) (bodyAmount bodyIncrement : Option (Option Int))
      (bodyReason : Option String)
  | deleteLoan (txId : Nat)
  | deleteFriend (fid : Nat)
deriving DecidableEq, Repr

/-- Effect of one request on the store (the HTTP response is dropped). -/
def step (now tz : Int) (op : Op) (db : DB) : DB :=
  match op with
  | .createFriend n w tb sa => createFriend now n w tb sa db
  | .setSaved fid v => setSaved fid v db
  | .setBalance fid v => setBalance now fid v db
  | .deduct fid a note sendOk => (deduct now tz fid a note sendOk db).1
  | .recordLoan fid a note => (recordLoan now fid a note db).1
  | .repay fid a note => (repay now fid a note db).1
  | .createLoan fid a r sm cfg so => (createLoan now fid a r sm cfg so db).1
  | .patchLoan txId ba bi br => (patchLoan now txId ba bi br db).1
  | .deleteLoan txId => (deleteLoan now txId db).1
  | .deleteFriend fid => (deleteFriend fid db).1

/-- The empty store the service starts from. -/
def initDB : DB := { friends := [], txs := [], nextFriendId := 0, nextTxId := 0 }

/-- Run a sequence of timestamped requests. -/
def run (tz : Int) (evs : List (Int × Op)) (db : DB) : DB :=
  evs.foldl (fun d e => step e.1 tz e.2 d) db

/-- Store well-formedness: id freshness/uniqueness bookkeeping together with
the central consistency invariant `owedAmount = ledgerOwed`. -/
def Inv (db : DB) : Prop :=
  (∀ f ∈ db.friends, f.id < db.nextFriendId) ∧
  (∀ t ∈ db.txs, t.friend < db.nextFriendId) ∧
  (∀ t ∈ db.txs, t.id < db.nextTxId) ∧
  (db.txs.map Transaction.id).Nodup ∧
  (∀ f ∈ db.friends, f.owedAmount = ledgerOwed f.id db.txs)

/-! ### Basic lemmas about the ledger aggregation -/

theorem loanSum_cons (fid : Nat) (t : Transaction) (ts : List Transaction) :
    loanSum fid (t :: ts) =
      (if t.friend = fid ∧ t.type = TxType.loan then t.amount else 0) +
        loanSum fid ts := by
  simp only [loanSum, List.filter_cons]
  by_cases h1 : t.friend = fid <;> by_cases h2 : t.type = TxType.loan <;>
    simp [h1, h2]

theorem repaySum_cons (fid : Nat) (t : Transaction) (ts : List Transaction) :
    repaySum fid (t :: ts) =
      (if t.friend = fid ∧ t.type = TxType.repay then t.amount else 0) +
        repaySum fid ts := by
  simp only [repaySum, List.filter_cons]
  by_cases h1 : t.friend = fid <;> by_cases h2 : t.type = TxType.repay <;>
    simp [h1, h2]

theorem ledgerOwed_cons (fid : Nat) (t : Transaction) (ts : List Transaction) :
    ledgerOwed fid (t :: ts) =
      ledgerOwed fid ts +
        (if t.friend = fid ∧ t.type = TxType.loan then t.amount else 0) -
        (if t.friend = fid ∧ t.type = TxType.repay then t.amount else 0) := by
  simp only [ledgerOwed, loanSum_cons, repaySum_cons]
  ring

theorem ledgerOwed_cons_loan (fid : Nat) (t : Transaction)
    (ts : List Transaction) (h1 : t.friend = fid) (h2 : t.type = TxType.loan) :
    ledgerOwed fid (t :: ts) = ledgerOwed fid ts + t.amount := by
  rw [ledgerOwed_cons]
  simp [h1, h2]

theorem ledgerOwed_cons_repay (fid : Nat) (t : Transaction)
    (ts : List Transaction) (h1 : t.friend = fid) (h2 : t.type = TxType.repay) :
    ledgerOwed fid (t :: ts) = ledgerOwed fid ts - t.amount := by
  rw [ledgerOwed_cons]
  simp [h1, h2]

theorem ledgerOwed_cons_skip (fid : Nat) (t : Transaction)
    (ts : List Transaction)
    (h : t.friend ≠ fid ∨ (t.type ≠ TxType.loan ∧ t.type ≠ TxType.repay)) :
    ledgerOwed fid (t :: ts) = ledgerOwed fid ts := by
  rw [ledgerOwed_cons]
  rcases h with h | ⟨h2, h3⟩
  · simp [h]
  · simp [h2, h3]

theorem ledgerOwed_nil (fid : Nat) : ledgerOwed fid [] = 0 := by
  simp [ledgerOwed, loanSum, repaySum]

theorem ledgerOwed_eq_zero {fid : Nat} {ts : List Transaction}
    (h : ∀ t ∈ ts, t.friend ≠ fid) : ledgerOwed fid ts = 0 := by
  induction ts with
  | nil => exact ledgerOwed_nil fid
  | cons t ts ih =>
    rw [ledgerOwed_cons_skip _ _ ts (Or.inl (h t (List.mem_cons_self t ts)))]
    exact ih fun u hu => h u (List.mem_cons_of_mem t hu)

theorem ledgerOwed_filter {fid : Nat} {ts : List Transaction}
    (p : Transaction → Bool) (h : ∀ t ∈ ts, t.friend = fid → p t = true) :
    ledgerOwed fid (ts.filter p) = ledgerOwed fid ts := by
  induction ts with
  | nil => rfl
  | cons t ts ih =>
    have ih2 := ih fun u hu => h u (List.mem_cons_of_mem t hu)
    rw [List.filter_cons]
    by_cases hp : p t = true
    · rw [if_pos hp, ledgerOwed_cons, ledgerOwed_cons, ih2]
    · have hfr : t.friend ≠ fid := fun he => hp (h t (List.mem_cons_self t ts) he)
      rw [if_neg hp, ledgerOwed_cons_skip _ _ ts (Or.inl hfr), ih2]

theorem ledgerOwed_map {fid : Nat} {ts : List Transaction}
    (g : Transaction → Transaction)
    (h : ∀ t ∈ ts, (t.friend = fid → g t = t) ∧ (g t).friend = t.friend) :
    ledgerOwed fid (ts.map g) = ledgerOwed fid ts := by
  induction ts with
  | nil => rfl
  | cons t ts ih =>
    have ih2 := ih fun u hu => h u (List.mem_cons_of_mem t hu)
    rw [List.map_cons]
    by_cases hfr : t.friend = fid
    · rw [(h t (List.mem_cons_self t ts)).1 hfr, ledgerOwed_cons, ledgerOwed_cons, ih2]
    · have : (g t).friend ≠ fid := by
        rw [(h t (List.mem_cons_self t ts)).2]; exact hfr
      rw [ledgerOwed_cons_skip _ _ _ (Or.inl this),
        ledgerOwed_cons_skip _ _ ts (Or.inl hfr), ih2]

/-! ### Lemmas about the by-id document update -/

theorem mem_updateById {fid : Nat} {u : Friend → Friend}
    {friends : List Friend} {f : Friend} (hu : ∀ g, (u g).id = g.id)
    (hf : f ∈ updateById fid u friends) :
    (f.id = fid ∧ ∃ g, g ∈ friends ∧ g.id = fid ∧ f = u g) ∨
      (f.id ≠ fid ∧ f ∈ friends) := by
  simp only [updateById, List.mem_map] at hf
  obtain ⟨g, hg, rfl⟩ := hf
  by_cases h : g.id = fid
  · exact Or.inl ⟨by simp [h, hu], g, hg, h, by simp [h]⟩
  · exact Or.inr ⟨by simp [h], by simp [h, hg]⟩

theorem owed_of_mem_setOwed {fid : Nat} {v now : Int} {friends : List Friend}
    {f : Friend} (hf : f ∈ setOwed fid v now friends) :
    (f.id = fid → f.owedAmount = v) ∧ (f.id ≠ fid → f ∈ friends) := by
  have hf2 : f ∈ updateById fid
      (fun g => { g with owedAmount := v, lastUpdatedAt := now }) friends := hf
  rcases mem_updateById
      (u := fun g => { g with owedAmount := v, lastUpdatedAt := now })
      (fun g => rfl) hf2 with ⟨hid, g, _, _, rfl⟩ | ⟨hid, hmem⟩
  · exact ⟨fun _ => rfl, fun h => absurd hid h⟩
  · exact ⟨fun h => absurd h hid, fun _ => hmem⟩

theorem id_lt_of_mem_updateById {fid : Nat} {u : Friend → Friend}
    {friends : List Friend} {n : Nat} (hu : ∀ g, (u g).id = g.id)
    (hlt : ∀ g ∈ friends, g.id < n) :
    ∀ f ∈ updateById fid u friends, f.id < n := by
  intro f hf
  rcases mem_updateById hu hf with ⟨_, g, hg, _, rfl⟩ | ⟨_, hmem⟩
  · rw [hu g]; exact hlt g hg
  · exact hlt f hmem

/-! ### Facts about document lookup -/

theorem findFriend_mem {fid : Nat} {db : DB} {friend : Friend}
    (h : findFriend fid db = some friend) : friend ∈ db.friends :=
  List.mem_of_find?_eq_some h

theorem findFriend_id {fid : Nat} {db : DB} {friend : Friend}
    (h : findFriend fid db = some friend) : friend.id = fid := by
  have := List.find?_some h
  simpa using this

theorem findTx_mem {txId : Nat} {db : DB} {t : Transaction}
    (h : findTx txId db = some t) : t ∈ db.txs :=
  List.mem_of_find?_eq_some h

theorem findTx_id {txId : Nat} {db : DB} {t : Transaction}
    (h : findTx txId db = some t) : t.id = txId := by
  have := List.find?_some h
  simpa using this

/-! ### Preservation of the store invariant by every API operation -/

theorem Inv_initDB : Inv initDB := by
  refine ⟨?_, ?_, ?_, ?_, ?_⟩ <;> simp [initDB]

theorem Inv_recalcOwed {db : DB} (now : Int) (fid : Nat)
    (h1 : ∀ f ∈ db.friends, f.id < db.nextFriendId)
    (h2 : ∀ t ∈ db.txs, t.friend < db.nextFriendId)
    (h3 : ∀ t ∈ db.txs, t.id < db.nextTxId)
    (h4 : (db.txs.map Transaction.id).Nodup)
    (h5 : ∀ f ∈ db.friends, f.id ≠ fid → f.owedAmount = ledgerOwed f.id db.txs) :
    Inv (recalcOwed now fid db) := by
  refine ⟨?_, h2, h3, h4, ?_⟩
  · exact id_lt_of_mem_updateById (fun g => rfl) h1
  · intro f hf
    have hmem := owed_of_mem_setOwed hf
    by_cases hid : f.id = fid
    · rw [hmem.1 hid, hid]; rfl
    · exact h5 f (hmem.2 hid) hid

theorem Inv_createFriend {db : DB} (now : Int) (n w : String)
    (tb sa : Option Int) (h : Inv db) : Inv (createFriend now n w tb sa db) := by
  obtain ⟨h1, h2, h3, h4, h5⟩ := h
  unfold createFriend
  split
  · exact ⟨h1, h2, h3, h4, h5⟩
  · refine ⟨?_, ?_, h3, h4, ?_⟩
    · intro f hf
      rcases List.mem_cons.mp hf with rfl | hf2
      · exact Nat.lt_succ_self _
      · exact Nat.lt_succ_of_lt (h1 f hf2)
    · intro t ht
      exact Nat.lt_succ_of_lt (h2 t ht)
    · intro f hf
      rcases List.mem_cons.mp hf with rfl | hf2
      · show (0 : Int) = ledgerOwed db.nextFriendId db.txs
        exact (ledgerOwed_eq_zero fun t ht => Nat.ne_of_lt (h2 t ht)).symm
      · exact h5 f hf2

theorem Inv_setSaved {db : DB} (fid : Nat) (v : Int) (h : Inv db) :
    Inv (setSaved fid v db) := by
  obtain ⟨h1, h2, h3, h4, h5⟩ := h
  refine ⟨id_lt_of_mem_updateById (fun g => rfl) h1, h2, h3, h4, ?_⟩
  intro f hf
  rcases mem_updateById (u := fun g => { g with savedAmount := v })
      (fun g => rfl) hf with ⟨_, g, hg, _, rfl⟩ | ⟨_, hmem⟩
  · exact h5 g hg
  · exact h5 f hmem

theorem Inv_setBalance {db : DB} (now : Int) (fid : Nat) (v : Int) (h : Inv db) :
    Inv (setBalance now fid v db) := by
  obtain ⟨h1, h2, h3, h4, h5⟩ := h
  refine ⟨id_lt_of_mem_updateById (fun g => rfl) h1, h2, h3, h4, ?_⟩
  intro f hf
  rcases mem_updateById
      (u := fun g => { g with totalBalance := v, lastUpdatedAt := now })
      (fun g => rfl) hf with ⟨_, g, hg, _, rfl⟩ | ⟨_, hmem⟩
  · exact h5 g hg
  · exact h5 f hmem

theorem nodup_fresh {db : DB} (h3 : ∀ t ∈ db.txs, t.id < db.nextTxId)
    (h4 : (db.txs.map Transaction.id).Nodup) (t : Transaction)
    (ht : t.id = db.nextTxId) :
    ((t :: db.txs).map Transaction.id).Nodup := by
  rw [List.map_cons, List.nodup_cons]
  refine ⟨?_, h4⟩
  intro hmem
  obtain ⟨u, hu, huid⟩ := List.mem_map.mp hmem
  exact absurd (huid.trans ht) (Nat.ne_of_lt (h3 u hu))

theorem tx_eq_of_id {txs : List Transaction}
    (h4 : (txs.map Transaction.id).Nodup) {t u : Transaction}
    (ht : t ∈ txs) (hu : u ∈ txs) (h : t.id = u.id) : t = u :=
  List.inj_on_of_nodup_map h4 ht hu h

/-- Common core of the two in-place friends-router mutations: insert a fresh
transaction and overwrite the friend's `owedAmount` with a value that happens
to equal the new ledger aggregate. -/
theorem Inv_insertTx_setOwed {db : DB} {friend : Friend} (now : Int)
    (t : Transaction) (v : Int) (hmem : friend ∈ db.friends)
    (htid : t.id = db.nextTxId) (htf : t.friend = friend.id) (h : Inv db)
    (hv : v = ledgerOwed friend.id (t :: db.txs)) :
    Inv { db with txs := t :: db.txs, nextTxId := db.nextTxId + 1,
                  friends := setOwed friend.id v now db.friends } := by
  obtain ⟨h1, h2, h3, h4, h5⟩ := h
  refine ⟨?_, ?_, ?_, ?_, ?_⟩
  · exact id_lt_of_mem_updateById (fun g => rfl) h1
  · intro u hu
    rcases List.mem_cons.mp hu with rfl | hu2
    · rw [htf]; exact h1 friend hmem
    · exact h2 u hu2
  · intro u hu
    rcases List.mem_cons.mp hu with rfl | hu2
    · rw [htid]; exact Nat.lt_succ_self _
    · exact Nat.lt_succ_of_lt (h3 u hu2)
  · exact nodup_fresh h3 h4 t htid
  · intro f hf
    have ho := owed_of_mem_setOwed hf
    by_cases hid : f.id = friend.id
    · rw [ho.1 hid, hid, hv]
    · have hf2 := ho.2 hid
      rw [h5 f hf2,
        ← ledgerOwed_cons_skip _ _ db.txs (Or.inl (htf ▸ Ne.symm hid))]

theorem Inv_recordLoan {db : DB} (now : Int) (fid : Nat) (a? : Option Int)
    (note : Option String) (h : Inv db) : Inv (recordLoan now fid a? note db).1 := by
  unfold recordLoan
  cases hff : findFriend fid db with
  | none => exact h
  | some friend =>
    cases a? with
    | none => exact h
    | some a =>
      dsimp only
      by_cases ha : a ≤ 0
      · rw [if_pos ha]; exact h
      · rw [if_neg ha]
        exact Inv_insertTx_setOwed now _ _ (findFriend_mem hff) rfl rfl h
          (by rw [ledgerOwed_cons_loan friend.id _ db.txs rfl rfl, h.2.2.2.2 friend (findFriend_mem hff)])

theorem Inv_repay {db : DB} (now : Int) (fid : Nat) (a? : Option Int)
    (note : Option String) (h : Inv db) : Inv (repay now fid a? note db).1 := by
  unfold repay
  cases hff : findFriend fid db with
  | none => exact h
  | some friend =>
    cases a? with
    | none => exact h
    | some a =>
      dsimp only
      by_cases ha : a ≤ 0
      · rw [if_pos ha]; exact h
      · rw [if_neg ha]
        by_cases hover : friend.owedAmount - a < 0
        · rw [if_pos hover]; exact h
        · rw [if_neg hover]
          exact Inv_insertTx_setOwed now _ _ (findFriend_mem hff) rfl rfl h
            (by rw [ledgerOwed_cons_repay friend.id _ db.txs rfl rfl,
                    h.2.2.2.2 friend (findFriend_mem hff)])

theorem Inv_deduct {db : DB} (now tz : Int) (fid : Nat) (a? : Option Int)
    (note : Option String) (sendOk : Bool) (h : Inv db) :
    Inv (deduct now tz fid a? note sendOk db).1 := by
  obtain ⟨h1, h2, h3, h4, h5⟩ := h
  unfold deduct
  cases a? with
  | none => exact ⟨h1, h2, h3, h4, h5⟩
  | some a =>
    dsimp only
    by_cases ha : a ≤ 0
    · rw [if_pos ha]; exact ⟨h1, h2, h3, h4, h5⟩
    · rw [if_neg ha]
      cases hff : findFriend fid db with
      | none => exact ⟨h1, h2, h3, h4, h5⟩
      | some friend =>
        dsimp only
        refine ⟨?_, ?_, ?_, ?_, ?_⟩
        · exact id_lt_of_mem_updateById (fun g => rfl) h1
        · intro u hu
          rcases List.mem_cons.mp hu with rfl | hu2
          · exact h1 friend (findFriend_mem hff)
          · exact h2 u hu2
        · intro u hu
          rcases List.mem_cons.mp hu with rfl | hu2
          · exact Nat.lt_succ_self _
          · exact Nat.lt_succ_of_lt (h3 u hu2)
        · exact nodup_fresh h3 h4 _ rfl
        · intro f hf
          have hskip :
              ∀ fid2, ledgerOwed fid2
                  ({ id := db.nextTxId, friend := friend.id,
                     type := TxType.debit, amount := a, reason := "",
                     note := note, date := now, previousBalance := none,
                     newBalance := none } :: db.txs) =
                ledgerOwed fid2 db.txs := by
            intro fid2
            exact ledgerOwed_cons_skip _ _ db.txs
              (Or.inr ⟨by simp, by simp⟩)
          rw [hskip]
          rcases mem_updateById
              (u := fun g => { g with totalBalance := friend.totalBalance - a,
                                      lastUpdatedAt := now })
              (fun g => rfl) hf with ⟨_, g, hg, _, rfl⟩ | ⟨_, hmem⟩
          · exact h5 g hg
          · exact h5 f hmem

/-- State part of a successful `POST /api/loans`: independent of the
notification flags, the persisted store is the recompute applied after the
loan insert. -/
theorem createLoan_fst {db : DB} {friend : Friend} (now : Int) (fid : Nat)
    (a : Int) (r : String) (sm cfg so : Bool)
    (hff : findFriend fid db = some friend) (ha : 0 < a) :
    (createLoan now fid (some a) r sm cfg so db).1 =
      recalcOwed now friend.id
        { db with
          txs := { id := db.nextTxId, friend := friend.id,
                   type := TxType.loan, amount := a, reason := r,
                   note := none, date := now,
                   previousBalance := some friend.owedAmount,
                   newBalance := some (friend.owedAmount + a) } :: db.txs,
          nextTxId := db.nextTxId + 1 } := by
  unfold createLoan
  dsimp only
  rw [if_neg (not_le.mpr ha), hff]
  cases sm <;> cases cfg <;> rfl

theorem Inv_createLoan {db : DB} (now : Int) (fid : Nat) (a? : Option Int)
    (r : String) (sm cfg so : Bool) (h : Inv db) :
    Inv (createLoan now fid a? r sm cfg so db).1 := by
  cases a? with
  | none => exact h
  | some a =>
    by_cases ha : 0 < a
    · cases hff : findFriend fid db with
      | none =>
        unfold createLoan
        dsimp only
        rw [if_neg (not_le.mpr ha), hff]
        exact h
      | some friend =>
        rw [createLoan_fst now fid a r sm cfg so hff ha]
        exact Inv_insertTx_setOwed now _ _ (findFriend_mem hff) rfl rfl h rfl
    · unfold createLoan
      dsimp only
      rw [if_pos (not_lt.mp ha)]
      exact h

theorem Inv_deleteLoan {db : DB} (now : Int) (txId : Nat) (h : Inv db) :
    Inv (deleteLoan now txId db).1 := by
  obtain ⟨h1, h2, h3, h4, h5⟩ := h
  unfold deleteLoan
  cases hft : findTx txId db with
  | none => exact ⟨h1, h2, h3, h4, h5⟩
  | some loan =>
    dsimp only
    have hlmem := findTx_mem hft
    have hlid := findTx_id hft
    have hsub : (db.txs.filter (fun t => !(t.id == txId))).Sublist db.txs :=
      List.filter_sublist db.txs
    refine Inv_recalcOwed now loan.friend ?_ ?_ ?_ ?_ ?_
    · exact h1
    · exact fun t ht => h2 t (hsub.mem ht)
    · exact fun t ht => h3 t (hsub.mem ht)
    · exact List.Nodup.sublist (hsub.map Transaction.id) h4
    · intro f hf hne
      rw [h5 f hf]
      refine (ledgerOwed_filter _ ?_).symm
      intro t ht htf
      have : t.id ≠ txId := by
        intro he
        have : t = loan := tx_eq_of_id h4 ht hlmem (he.trans hlid.symm)
        exact hne (htf ▸ (this ▸ rfl) : loan.friend = f.id).symm
      simp [this]

theorem Inv_patchLoan {db : DB} (now : Int) (txId : Nat)
    (ba bi : Option (Option Int)) (br : Option String) (h : Inv db) :
    Inv (patchLoan now txId ba bi br db).1 := by
  obtain ⟨h1, h2, h3, h4, h5⟩ := h
  unfold patchLoan
  cases hft : findTx txId db with
  | none => exact ⟨h1, h2, h3, h4, h5⟩
  | some loan =>
    dsimp only
    have hlmem := findTx_mem hft
    have hlid := findTx_id hft
    set rsn := br.getD loan.reason with hrsn
    have hcore : ∀ v : Int,
        Inv (recalcOwed now loan.friend
          { db with txs := db.txs.map fun t =>
              if t.id = txId then { t with amount := v, reason := rsn }
              else t }) := by
      intro v
      refine Inv_recalcOwed now loan.friend ?_ ?_ ?_ ?_ ?_
      · exact h1
      · intro t ht
        obtain ⟨u, hu, rfl⟩ := List.mem_map.mp ht
        by_cases he : u.id = txId
        · rw [if_pos he]; exact h2 u hu
        · rw [if_neg he]; exact h2 u hu
      · intro t ht
        obtain ⟨u, hu, rfl⟩ := List.mem_map.mp ht
        by_cases he : u.id = txId
        · rw [if_pos he]; exact h3 u hu
        · rw [if_neg he]; exact h3 u hu
      · have : (db.txs.map fun t =>
            if t.id = txId then { t with amount := v, reason := rsn }
            else t).map Transaction.id = db.txs.map Transaction.id := by
          rw [List.map_map]
          refine List.map_congr_left ?_
          intro t _
          by_cases he : t.id = txId
          · simp [he]
          · simp [he]
        rw [this]; exact h4
      · intro f hf hne
        rw [h5 f hf]
        refine (ledgerOwed_map _ ?_).symm
        intro t ht
        constructor
        · intro htf
          have : t.id ≠ txId := by
            intro he
            have ht2 : t = loan := tx_eq_of_id h4 ht hlmem (he.trans hlid.symm)
            exact hne (htf ▸ (ht2 ▸ rfl) : loan.friend = f.id).symm
          rw [if_neg this]
        · by_cases he : t.id = txId
          · rw [if_pos he]
          · rw [if_neg he]
    cases ba with
    | some oa =>
      cases oa with
      | none => exact ⟨h1, h2, h3, h4, h5⟩
      | some q =>
        dsimp only
        by_cases hq : q < 0
        · rw [if_pos hq]; exact ⟨h1, h2, h3, h4, h5⟩
        · rw [if_neg hq]; exact hcore q
    | none =>
      cases bi with
      | some oi =>
        cases oi with
        | none => exact ⟨h1, h2, h3, h4, h5⟩
        | some i => exact hcore (loan.amount + i)
      | none => exact hcore loan.amount

theorem Inv_deleteFriend {db : DB} (fid : Nat) (h : Inv db) :
    Inv (deleteFriend fid db).1 := by
  obtain ⟨h1, h2, h3, h4, h5⟩ := h
  unfold deleteFriend
  cases hff : findFriend fid db with
  | none => exact ⟨h1, h2, h3, h4, h5⟩
  | some friend =>
    dsimp only
    have hsubF : (db.friends.filter (fun f => !(f.id == fid))).Sublist db.friends :=
      List.filter_sublist db.friends
    have hsubT : (db.txs.filter (fun t => !(t.friend == fid))).Sublist db.txs :=
      List.filter_sublist db.txs
    refine ⟨?_, ?_, ?_, ?_, ?_⟩
    · exact fun f hf => h1 f (hsubF.mem hf)
    · exact fun t ht => h2 t (hsubT.mem ht)
    · exact fun t ht => h3 t (hsubT.mem ht)
    · exact List.Nodup.sublist (hsubT.map Transaction.id) h4
    · intro f hf
      have hfmem := hsubF.mem hf
      have hfne : f.id ≠ fid := by
        have := List.of_mem_filter hf
        simpa using this
      rw [h5 f hfmem]
      refine (ledgerOwed_filter _ ?_).symm
      intro t _ htf
      simp [htf, hfne]

/-- Every API request preserves the store invariant. -/
theorem Inv_step {db : DB} (now tz : Int) (op : Op) (h : Inv db) :
    Inv (step now tz op db) := by
  cases op with
  | createFriend n w tb sa => exact Inv_createFriend now n w tb sa h
  | setSaved fid v => exact Inv_setSaved fid v h
  | setBalance fid v => exact Inv_setBalance now fid v h
  | deduct fid a note so => exact Inv_deduct now tz fid a note so h
  | recordLoan fid a note => exact Inv_recordLoan now fid a note h
  | repay fid a note => exact Inv_repay now fid a note h
  | createLoan fid a r sm cfg so => exact Inv_createLoan now fid a r sm cfg so h
  | patchLoan txId ba bi br => exact Inv_patchLoan now txId ba bi br h
  | deleteLoan txId => exact Inv_deleteLoan now txId h
  | deleteFriend fid => exact Inv_deleteFriend fid h

theorem Inv_run {db : DB} (tz : Int) (evs : List (Int × Op)) (h : Inv db) :
    Inv (run tz evs db) := by
  induction evs generalizing db with
  | nil => exact h
  | cons e evs ih => exact ih (Inv_step e.1 tz e.2 h)

/-! ### The local-day window -/

theorem dayStart_le (tz now : Int) : dayStart tz now ≤ now := by
  unfold dayStart dayMs
  have h := Int.fmod_add_fdiv (now + tz) 86400000
  have h2 : 0 ≤ (now + tz).fmod 86400000 := by
    rw [Int.fmod_eq_emod _ (by norm_num)]
    exact Int.emod_nonneg _ (by norm_num)
  omega

theorem le_dayEnd (tz now : Int) : now ≤ dayEnd tz now := by
  unfold dayEnd dayStart dayMs
  have h := Int.fmod_add_fdiv (now + tz) 86400000
  have h2 : (now + tz).fmod 86400000 < 86400000 := Int.fmod_lt_of_pos _ (by norm_num)
  omega

theorem dayStart_le_dayEnd (tz now : Int) : dayStart tz now ≤ dayEnd tz now := by
  unfold dayEnd dayMs
  omega

theorem todaysSpent_nil (tz : Int) (fid : Nat) (now : Int) :
    todaysSpent tz fid now [] = 0 := rfl

theorem todaysSpent_cons_in (tz : Int) (fid : Nat) (now : Int)
    (t : Transaction) (ts : List Transaction) (h1 : t.friend = fid)
    (h2 : dayStart tz now ≤ t.date) (h3 : t.date ≤ dayEnd tz now) :
    todaysSpent tz fid now (t :: ts) = t.amount + todaysSpent tz fid now ts := by
  simp [todaysSpent, List.filter_cons, h1, h2, h3]

theorem todaysSpent_cons_out (tz : Int) (fid : Nat) (now : Int)
    (t : Transaction) (ts : List Transaction)
    (h : t.friend ≠ fid ∨ ¬ (dayStart tz now ≤ t.date ∧ t.date ≤ dayEnd tz now)) :
    todaysSpent tz fid now (t :: ts) = todaysSpent tz fid now ts := by
  simp only [todaysSpent, List.filter_cons]
  have hcond : (t.friend == fid && decide (dayStart tz now ≤ t.date) &&
      decide (t.date ≤ dayEnd tz now)) = false := by
    rcases h with h | h
    · simp [h]
    · rcases not_and_or.mp h with h2 | h2 <;> simp [h2]
  rw [hcond]
  simp

theorem todaysSpent_eq_zero (tz : Int) (fid : Nat) (now : Int)
    (txs : List Transaction)
    (h : ∀ t ∈ txs, ¬ (dayStart tz now ≤ t.date ∧ t.date ≤ dayEnd tz now)) :
    todaysSpent tz fid now txs = 0 := by
  induction txs with
  | nil => rfl
  | cons t ts ih =>
    rw [todaysSpent_cons_out tz fid now t ts
      (Or.inr (h t (List.mem_cons_self t ts)))]
    exact ih fun u hu => h u (List.mem_cons_of_mem t hu)

/-! ### Claim C1 -/

/-- Claim C1 (amended): for every sequence of API operations applied to the
initial empty store, every friend's stored `owedAmount` equals
`sum(amount where type=loan) - sum(amount where type=repay)` over that
friend's transactions.  The loans-router create/amend/delete operations
maintain this by full-replacement recompute (`recalcOwed`); the
friends-router loan and repay handlers instead update `owedAmount` in place,
which also preserves the invariant from any consistent state. -/
theorem owedAmount_matches_ledger (tz : Int) (evs : List (Int × Op))
    (f : Friend) (hf : f ∈ (run tz evs initDB).friends) :
    f.owedAmount = ledgerOwed f.id (run tz evs initDB).txs :=
  (Inv_run tz evs Inv_initDB).2.2.2.2 f hf

/-- Scenario of spec §8: create friend, loan 500, repay 200, amend the loan
entry to 400 absolute. -/
def demoEvs : List (Int × Op) :=
  [(0, Op.createFriend "A" "91" none none),
   (5, Op.recordLoan 0 (some 500) none),
   (6, Op.repay 0 (some 200) none),
   (7, Op.patchLoan 0 (some (some 400)) none none)]

/-- The friend document produced by `demoEvs` (owed `400 - 200 = 200`). -/
def demoFriend : Friend :=
  { id := 0, name := "A", whatsapp := "91", savedAmount := 0,
    totalBalance := 0, owedAmount := 200, lastUpdatedAt := 7 }

theorem owedAmount_matches_ledger_witness :
    demoFriend.owedAmount = ledgerOwed demoFriend.id (run 0 demoEvs initDB).txs :=
  owedAmount_matches_ledger 0 demoEvs demoFriend (by decide)

/-- A store whose stored `owedAmount` (5) disagrees with its (empty) ledger. -/
def driftedDB : DB :=
  { friends := [{ id := 0, name := "A", whatsapp := "91", savedAmount := 0,
                  totalBalance := 0, owedAmount := 5, lastUpdatedAt := 0 }],
    txs := [], nextFriendId := 1, nextTxId := 0 }

/-- Claim C1 counterexample: the friends-router loan handler increments the
stored `owedAmount` in place (5 + 10 = 15) instead of replacing it with the
recomputed ledger value (10), so after this create of a loan transaction the
stored value differs from the recompute — the operation is not performed
"via the recompute operation". -/
theorem recordLoan_not_recompute :
    (recordLoan 1 0 (some 10) none driftedDB).1.friends.map Friend.owedAmount ≠
      (recordLoan 1 0 (some 10) none driftedDB).1.friends.map
        (fun f => ledgerOwed f.id (recordLoan 1 0 (some 10) none driftedDB).1.txs) := by
  decide

/-! ### Claim C2 -/

/-- Claim C2: for a resolvable friend and a repayment of amount `a > 0`:
if `a` exceeds the current `owedAmount` the request is rejected with the
over-repayment error and the store is completely unchanged; if
`a ≤ owedAmount` it succeeds, appends a `type=repay` transaction of amount
`a`, and sets the friend's `owedAmount` to exactly `owedAmount - a`, which
is non-negative — and exactly `0` when `a = owedAmount`. -/
theorem repay_overRepayment_guard (now : Int) (fid : Nat) (a : Int)
    (note : Option String) (db : DB) (friend : Friend)
    (hff : findFriend fid db = some friend) (ha : 0 < a) :
    (friend.owedAmount < a →
      repay now fid (some a) note db = (db, MutResult.overRepayment)) ∧
    (a ≤ friend.owedAmount →
      (repay now fid (some a) note db).2 = MutResult.ok ∧
      (∃ tx, (repay now fid (some a) note db).1.txs = tx :: db.txs ∧
        tx.type = TxType.repay ∧ tx.amount = a ∧ tx.friend = friend.id) ∧
      (∀ f ∈ (repay now fid (some a) note db).1.friends, f.id = friend.id →
        f.owedAmount = friend.owedAmount - a ∧ 0 ≤ f.owedAmount)) ∧
    (a = friend.owedAmount →
      ∀ f ∈ (repay now fid (some a) note db).1.friends, f.id = friend.id →
        f.owedAmount = 0) := by
  unfold repay
  rw [hff]
  dsimp only
  rw [if_neg (not_le.mpr ha)]
  have hsucc : ∀ hle : a ≤ friend.owedAmount,
      ¬ (friend.owedAmount - a < 0) := fun hle =>
    not_lt.mpr (sub_nonneg.mpr hle)
  refine ⟨?_, ?_, ?_⟩
  · intro hlt
    rw [if_pos (sub_neg.mpr hlt)]
  · intro hle
    rw [if_neg (hsucc hle)]
    refine ⟨rfl, ⟨_, rfl, rfl, rfl, rfl⟩, ?_⟩
    intro f hf hid
    have ho := owed_of_mem_setOwed hf
    exact ⟨ho.1 hid, (ho.1 hid) ▸ sub_nonneg.mpr hle⟩
  · intro heq f hf hid
    rw [if_neg (hsucc (le_of_eq heq))] at hf
    have ho := owed_of_mem_setOwed hf
    rw [ho.1 hid, ← heq, sub_self]

/-- A store with one friend who currently owes 200, for the C2 witness. -/
def repayDB : DB :=
  { friends := [{ id := 0, name := "B", whatsapp := "91", savedAmount := 0,
                  totalBalance := 0, owedAmount := 200, lastUpdatedAt := 0 }],
    txs := [], nextFriendId := 1, nextTxId := 0 }

/-- The friend document of `repayDB`. -/
def repayFriend : Friend :=
  { id := 0, name := "B", whatsapp := "91", savedAmount := 0,
    totalBalance := 0, owedAmount := 200, lastUpdatedAt := 0 }

theorem repay_overRepayment_guard_witness :
    repay 1 0 (some 300) none repayDB = (repayDB, MutResult.overRepayment) ∧
    (repay 1 0 (some 200) none repayDB).2 = MutResult.ok :=
  ⟨(repay_overRepayment_guard 1 0 300 none repayDB repayFriend (by decide)
      (by decide)).1 (by decide),
   ((repay_overRepayment_guard 1 0 200 none repayDB repayFriend (by decide)
      (by decide)).2.1 (by decide)).1⟩

/-! ### Claim C3 -/

/-- A store with one friend whose `totalBalance` is 100, for C3. -/
def deductDB : DB :=
  { friends := [{ id := 0, name := "C", whatsapp := "91", savedAmount := 0,
                  totalBalance := 100, owedAmount := 0, lastUpdatedAt := 0 }],
    txs := [], nextFriendId := 1, nextTxId := 0 }

/-- The friend document of `deductDB`. -/
def deductFriend : Friend :=
  { id := 0, name := "C", whatsapp := "91", savedAmount := 0,
    totalBalance := 100, owedAmount := 0, lastUpdatedAt := 0 }

/-- Claim C3 counterexample: debiting 30 from a friend with balance 100 does
not write `previousBalance = 100` / `newBalance = 70` on the transaction —
the deduct handlers pass no balance snapshots, so both fields stay at their
`null` schema default. -/
theorem deduct_no_snapshots :
    ¬ ∃ t ∈ (deduct 0 0 0 (some 30) none true deductDB).1.txs,
        t.previousBalance = some 100 ∧ t.newBalance = some 70 := by
  decide

/-- Claim C3 (amended): for a friend with balance `b` and a debit of `a > 0`,
the handler writes a new `type=debit` transaction with amount `a` and
`previousBalance`/`newBalance` left `null`, and sets the friend's
`totalBalance` to exactly `b - a` (no clamping, possibly negative) and
`lastUpdatedAt` to the transaction's date. -/
theorem deduct_balance_exact (now tz : Int) (fid : Nat) (a : Int)
    (note : Option String) (so : Bool) (db : DB) (friend : Friend)
    (hff : findFriend fid db = some friend) (ha : 0 < a) :
    (∃ tx, (deduct now tz fid (some a) note so db).1.txs = tx :: db.txs ∧
      tx.type = TxType.debit ∧ tx.amount = a ∧ tx.friend = friend.id ∧
      tx.date = now ∧ tx.previousBalance = none ∧ tx.newBalance = none) ∧
    (∀ f ∈ (deduct now tz fid (some a) note so db).1.friends,
      f.id = friend.id →
        f.totalBalance = friend.totalBalance - a ∧ f.lastUpdatedAt = now) := by
  unfold deduct
  dsimp only
  rw [if_neg (not_le.mpr ha), hff]
  refine ⟨⟨_, rfl, rfl, rfl, rfl, rfl, rfl, rfl⟩, ?_⟩
  intro f hf hid
  rcases mem_updateById
      (u := fun g => { g with totalBalance := friend.totalBalance - a,
                              lastUpdatedAt := now })
      (fun g => rfl) hf with ⟨_, g, _, _, rfl⟩ | ⟨hne, _⟩
  · exact ⟨rfl, rfl⟩
  · exact absurd hid hne

/-- The friend document after debiting 150 from `deductDB`: the balance went
negative (`100 - 150 = -50`), as the code allows. -/
def deductFriendAfter : Friend :=
  { id := 0, name := "C", whatsapp := "91", savedAmount := 0,
    totalBalance := -50, owedAmount := 0, lastUpdatedAt := 3 }

theorem deduct_balance_exact_witness :
    deductFriendAfter.totalBalance = deductFriend.totalBalance - 150 ∧
    deductFriendAfter.lastUpdatedAt = 3 :=
  (deduct_balance_exact 3 0 0 150 none true deductDB deductFriend (by decide)
    (by decide)).2 deductFriendAfter (by decide) (by decide)

/-! ### Claim C4 -/

/-- A `type=loan` transaction dated inside the day window of `now = 100`
(UTC, `tz = 0`). -/
def loanTodayTx : Transaction :=
  { id := 0, friend := 0, type := TxType.loan, amount := 7, reason := "",
    note := none, date := 100, previousBalance := none, newBalance := none }

/-- Claim C4 counterexample: the implemented `todaysSpent` query has no
`type` filter, so a `type=loan` transaction inside the window is counted
(sum 7), while the spec's debit-only sum is 0. -/
theorem todaysSpent_counts_non_debits :
    todaysSpent 0 0 100 [loanTodayTx] ≠ todaysSpentSpec 0 0 100 [loanTodayTx] := by
  decide

/-- Claim C4 (amended): `todaysSpent` sums the amounts of ALL of the
friend's transactions (any type) whose timestamp lies in the closed local
day window `[midnight, 23:59:59.999]`; it is 0 when nothing falls in the
window, a transaction dated exactly 23:59:59.999 counts while next
midnight does not, and the sum returned by a successful debit includes the
just-written transaction because it is computed after the save. -/
theorem todaysSpent_window (now tz : Int) (fid : Nat) (a : Int)
    (note : Option String) (so : Bool) (db : DB) (friend : Friend)
    (hff : findFriend fid db = some friend) (ha : 0 < a) :
    ((deduct now tz fid (some a) note so db).2 =
      DeductResult.ok (a + todaysSpent tz friend.id now db.txs)) ∧
    (∀ txs : List Transaction,
      (∀ t ∈ txs, ¬ (dayStart tz now ≤ t.date ∧ t.date ≤ dayEnd tz now)) →
      todaysSpent tz friend.id now txs = 0) ∧
    (∀ t : Transaction, t.friend = friend.id → t.date = dayEnd tz now →
      todaysSpent tz friend.id now [t] = t.amount) ∧
    (∀ t : Transaction, t.date = dayEnd tz now + 1 →
      todaysSpent tz friend.id now [t] = 0) := by
  refine ⟨?_, ?_, ?_, ?_⟩
  · unfold deduct
    dsimp only
    rw [if_neg (not_le.mpr ha), hff]
    dsimp only
    rw [todaysSpent_cons_in tz friend.id now _ db.txs rfl
      (dayStart_le tz now) (le_dayEnd tz now)]
  · exact todaysSpent_eq_zero tz friend.id now
  · intro t h1 h2
    rw [todaysSpent_cons_in tz friend.id now t [] h1
      (h2 ▸ dayStart_le_dayEnd tz now) (le_of_eq h2)]
    simp [todaysSpent_nil]
  · intro t h2
    rw [todaysSpent_cons_out tz friend.id now t []
      (Or.inr fun hc => by omega)]
    exact todaysSpent_nil tz friend.id now

/-- Store for the C4 witness: friend 0 with an empty ledger. -/
def spendDB : DB :=
  { friends := [{ id := 0, name := "D", whatsapp := "91", savedAmount := 0,
                  totalBalance := 40, owedAmount := 0, lastUpdatedAt := 0 }],
    txs := [], nextFriendId := 1, nextTxId := 0 }

/-- The friend document of `spendDB`. -/
def spendFriend : Friend :=
  { id := 0, name := "D", whatsapp := "91", savedAmount := 0,
    totalBalance := 40, owedAmount := 0, lastUpdatedAt := 0 }

/-- A debit dated exactly at local 23:59:59.999 of the day of `now = 5`. -/
def endOfDayTx : Transaction :=
  { id := 9, friend := 0, type := TxType.debit, amount := 4, reason := "",
    note := none, date := 86399999, previousBalance := none,
    newBalance := none }

/-- A debit dated exactly at the next local midnight. -/
def nextMidnightTx : Transaction :=
  { id := 9, friend := 0, type := TxType.debit, amount := 4, reason := "",
    note := none, date := 86400000, previousBalance := none,
    newBalance := none }

theorem todaysSpent_window_witness :
    ((deduct 5 0 0 (some 30) none true spendDB).2 =
      DeductResult.ok (30 + todaysSpent 0 0 5 spendDB.txs)) ∧
    todaysSpent 0 0 5 [endOfDayTx] = 4 ∧
    todaysSpent 0 0 5 [nextMidnightTx] = 0 :=
  ⟨(todaysSpent_window 5 0 0 30 none true spendDB spendFriend (by decide)
      (by decide)).1,
   (todaysSpent_window 5 0 0 30 none true spendDB spendFriend (by decide)
      (by decide)).2.2.1 endOfDayTx (by decide) (by decide),
   (todaysSpent_window 5 0 0 30 none true spendDB spendFriend (by decide)
      (by decide)).2.2.2 nextMidnightTx (by decide)⟩

/-! ### Claim C5 -/

/-- Claim C5: the debit handler rejects a non-numeric amount and a
non-positive amount with the invalid-amount error, and an unresolvable
friend id with not-found, in each case before any write — the returned
store is exactly the input store. -/
theorem deduct_validation (now tz : Int) (fid : Nat) (note : Option String)
    (so : Bool) (db : DB) :
    (deduct now tz fid none note so db = (db, DeductResult.invalidAmount)) ∧
    (∀ a : Int, a ≤ 0 →
      deduct now tz fid (some a) note so db = (db, DeductResult.invalidAmount)) ∧
    (∀ a : Int, 0 < a → findFriend fid db = none →
      deduct now tz fid (some a) note so db = (db, DeductResult.friendNotFound)) := by
  refine ⟨rfl, ?_, ?_⟩
  · intro a hle
    unfold deduct
    dsimp only
    rw [if_pos hle]
  · intro a ha hff
    unfold deduct
    dsimp only
    rw [if_neg (not_le.mpr ha), hff]

theorem deduct_validation_witness :
    (deduct 0 0 0 (some 0) none true deductDB =
      (deductDB, DeductResult.invalidAmount)) ∧
    (deduct 0 0 99 (some 5) none true deductDB =
      (deductDB, DeductResult.friendNotFound)) :=
  ⟨(deduct_validation 0 0 0 none true deductDB).2.1 0 (by decide),
   (deduct_validation 0 0 99 none true deductDB).2.2 5 (by decide) (by decide)⟩

/-! ### Claim C6 -/

theorem createLoan_fst_const (now : Int) (fid : Nat) (a? : Option Int)
    (r : String) (sm cfg o1 o2 : Bool) (db : DB) :
    (createLoan now fid a? r sm cfg o1 db).1 =
      (createLoan now fid a? r sm cfg o2 db).1 := by
  cases a? with
  | none => rfl
  | some a =>
    by_cases h : a ≤ 0
    · unfold createLoan
      dsimp only
      rw [if_pos h, if_pos h]
    · cases hff : findFriend fid db with
      | none =>
        unfold createLoan
        dsimp only
        rw [if_neg h, if_neg h, hff]
      | some friend =>
        rw [createLoan_fst now fid a r sm cfg o1 hff (not_le.mp h),
            createLoan_fst now fid a r sm cfg o2 hff (not_le.mp h)]

/-- Claim C6: the persisted effect of a money-moving operation never depends
on the notification outcome.  The state written by a notify-flagged loan
creation is the same whether the awaited provider call succeeds or fails;
when it fails (with credentials configured), the loan is still created with
the recompute applied — identical to the state of a no-notify creation —
and the failure is merely reported in the response.  The debit handler's
fire-and-forget dispatch cannot influence the stored state or the response
at all. -/
theorem notification_failure_isolated (now tz : Int) :
    (∀ (fid : Nat) (a? : Option Int) (r : String) (cfg o1 o2 : Bool) (db : DB),
      (createLoan now fid a? r true cfg o1 db).1 =
        (createLoan now fid a? r true cfg o2 db).1) ∧
    (∀ (fid : Nat) (a? : Option Int) (note : Option String) (o1 o2 : Bool)
      (db : DB), deduct now tz fid a? note o1 db = deduct now tz fid a? note o2 db) ∧
    (∀ (fid : Nat) (a : Int) (r : String) (db : DB) (friend : Friend),
      findFriend fid db = some friend → 0 < a →
      (createLoan now fid (some a) r true true false db).2 =
        LoanCreateResult.created (some SendOutcome.failed) ∧
      (∃ tx, (createLoan now fid (some a) r true true false db).1.txs =
          tx :: db.txs ∧ tx.type = TxType.loan ∧ tx.amount = a) ∧
      (createLoan now fid (some a) r true true false db).1 =
        (createLoan now fid (some a) r false true false db).1) := by
  refine ⟨?_, ?_, ?_⟩
  · exact fun fid a? r cfg o1 o2 db => createLoan_fst_const now fid a? r true cfg o1 o2 db
  · intro fid a? note o1 o2 db
    rfl
  · intro fid a r db friend hff ha
    refine ⟨?_, ?_, ?_⟩
    · unfold createLoan
      dsimp only
      rw [if_neg (not_le.mpr ha), hff]
      rfl
    · rw [createLoan_fst now fid a r true true false hff ha]
      exact ⟨_, rfl, rfl, rfl⟩
    · rw [createLoan_fst now fid a r true true false hff ha,
          createLoan_fst now fid a r false true false hff ha]

/-- A store with one friend owing nothing yet, for the loan-creation
witnesses. -/
def loansDB : DB :=
  { friends := [{ id := 0, name := "G", whatsapp := "91", savedAmount := 0,
                  totalBalance := 0, owedAmount := 0, lastUpdatedAt := 0 }],
    txs := [], nextFriendId := 1, nextTxId := 0 }

/-- The friend document of `loansDB`. -/
def loansFriend : Friend :=
  { id := 0, name := "G", whatsapp := "91", savedAmount := 0,
    totalBalance := 0, owedAmount := 0, lastUpdatedAt := 0 }

theorem notification_failure_isolated_witness :
    (createLoan 3 0 (some 50) "" true true false loansDB).2 =
      LoanCreateResult.created (some SendOutcome.failed) ∧
    (createLoan 3 0 (some 50) "" true true false loansDB).1 =
      (createLoan 3 0 (some 50) "" false true false loansDB).1 :=
  ⟨((notification_failure_isolated 3 0).2.2 0 50 "" loansDB loansFriend
      (by decide) (by decide)).1,
   ((notification_failure_isolated 3 0).2.2 0 50 "" loansDB loansFriend
      (by decide) (by decide)).2.2⟩

/-! ### Claim C7 -/

/-- Claim C7: a notify-flagged loan creation while the provider credentials
are absent answers with the distinct not-configured (503) condition, yet the
loan transaction and the `owedAmount` recompute have already been persisted:
the stored state equals that of a plain no-notify creation, the new
`type=loan` transaction is present, and the friend's `owedAmount` is the
recomputed ledger value. -/
theorem createLoan_unconfigured (now : Int) (fid : Nat) (a : Int) (r : String)
    (so : Bool) (db : DB) (friend : Friend)
    (hff : findFriend fid db = some friend) (ha : 0 < a) :
    (createLoan now fid (some a) r true false so db).2 =
      LoanCreateResult.notConfigured ∧
    (createLoan now fid (some a) r true false so db).1 =
      (createLoan now fid (some a) r false false so db).1 ∧
    (∃ tx, (createLoan now fid (some a) r true false so db).1.txs =
        tx :: db.txs ∧ tx.type = TxType.loan ∧ tx.amount = a ∧
        tx.friend = friend.id) ∧
    (∀ f ∈ (createLoan now fid (some a) r true false so db).1.friends,
      f.id = friend.id →
        f.owedAmount = ledgerOwed friend.id
          ((createLoan now fid (some a) r true false so db).1.txs)) := by
  refine ⟨?_, ?_, ?_, ?_⟩
  · unfold createLoan
    dsimp only
    rw [if_neg (not_le.mpr ha), hff]
    rfl
  · rw [createLoan_fst now fid a r true false so hff ha,
        createLoan_fst now fid a r false false so hff ha]
  · rw [createLoan_fst now fid a r true false so hff ha]
    exact ⟨_, rfl, rfl, rfl, rfl⟩
  · rw [createLoan_fst now fid a r true false so hff ha]
    intro f hf hid
    exact (owed_of_mem_setOwed hf).1 hid

theorem createLoan_unconfigured_witness :
    (createLoan 3 0 (some 50) "" true false false loansDB).2 =
      LoanCreateResult.notConfigured ∧
    (createLoan 3 0 (some 50) "" true false false loansDB).1.friends.map
      Friend.owedAmount = [50] :=
  ⟨(createLoan_unconfigured 3 0 50 "" false loansDB loansFriend (by decide)
      (by decide)).1,
   by decide⟩

/-! ### Claim C8 -/

/-- Claim C8: deleting a resolvable loan/repay transaction removes exactly
that transaction and then recomputes, so the owning friend's `owedAmount`
ends up equal to the ledger aggregate over the transaction log without the
deleted entry. -/
theorem deleteLoan_restores (now : Int) (txId : Nat) (db : DB)
    (loan : Transaction) (hft : findTx txId db = some loan) :
    (deleteLoan now txId db).2 = DeleteResult.ok ∧
    (deleteLoan now txId db).1.txs = db.txs.filter (fun t => !(t.id == txId)) ∧
    (∀ f ∈ (deleteLoan now txId db).1.friends, f.id = loan.friend →
      f.owedAmount =
        ledgerOwed loan.friend (db.txs.filter (fun t => !(t.id == txId)))) := by
  unfold deleteLoan
  rw [hft]
  dsimp only
  refine ⟨rfl, rfl, ?_⟩
  intro f hf hid
  exact (owed_of_mem_setOwed hf).1 hid

/-- A store with one friend owing 500 through a single loan entry. -/
def singleLoanDB : DB :=
  { friends := [{ id := 0, name := "E", whatsapp := "91", savedAmount := 0,
                  totalBalance := 0, owedAmount := 500, lastUpdatedAt := 0 }],
    txs := [{ id := 0, friend := 0, type := TxType.loan, amount := 500,
              reason := "", note := none, date := 0,
              previousBalance := some 0, newBalance := some 500 }],
    nextFriendId := 1, nextTxId := 1 }

/-- The single loan entry of `singleLoanDB`. -/
def singleLoanTx : Transaction :=
  { id := 0, friend := 0, type := TxType.loan, amount := 500, reason := "",
    note := none, date := 0, previousBalance := some 0, newBalance := some 500 }

theorem deleteLoan_restores_witness :
    (deleteLoan 9 0 singleLoanDB).2 = DeleteResult.ok ∧
    (deleteLoan 9 0 singleLoanDB).1.friends.map Friend.owedAmount = [0] :=
  ⟨(deleteLoan_restores 9 0 singleLoanDB singleLoanTx (by decide)).1, by decide⟩

/-! ### Claim C9 -/

theorem filter_not_filter {α : Type} (p : α → Bool) (l : List α) :
    (l.filter (fun a => !(p a))).filter p = [] := by
  induction l with
  | nil => rfl
  | cons a l ih =>
    by_cases h : p a = true
    · simp [List.filter_cons, h, ih]
    · simp [List.filter_cons, h, ih]

/-- Claim C9: deleting a resolvable friend removes the friend document and
every transaction owned by it — a post-delete query for that friend's
transactions (and for the friend itself) returns the empty set. -/
theorem deleteFriend_cascades (fid : Nat) (db : DB) (friend : Friend)
    (hff : findFriend fid db = some friend) :
    (deleteFriend fid db).2 = DeleteFriendResult.ok ∧
    (deleteFriend fid db).1.txs.filter (fun t => t.friend == fid) = [] ∧
    (deleteFriend fid db).1.friends.filter (fun f => f.id == fid) = [] := by
  unfold deleteFriend
  rw [hff]
  dsimp only
  exact ⟨rfl, filter_not_filter _ db.txs, filter_not_filter _ db.friends⟩

/-- Two friends, one transaction each, for the cascade-delete witness. -/
def twoFriendDB : DB :=
  { friends := [{ id := 0, name := "H", whatsapp := "91", savedAmount := 0,
                  totalBalance := 10, owedAmount := 0, lastUpdatedAt := 0 },
                { id := 1, name := "I", whatsapp := "92", savedAmount := 0,
                  totalBalance := 20, owedAmount := 0, lastUpdatedAt := 0 }],
    txs := [{ id := 0, friend := 0, type := TxType.debit, amount := 3,
              reason := "", note := none, date := 0, previousBalance := none,
              newBalance := none },
            { id := 1, friend := 0, type := TxType.loan, amount := 4,
              reason := "", note := none, date := 0, previousBalance := none,
              newBalance := none },
            { id := 2, friend := 1, type := TxType.debit, amount := 5,
              reason := "", note := none, date := 0, previousBalance := none,
              newBalance := none }],
    nextFriendId := 2, nextTxId := 3 }

/-- The first friend document of `twoFriendDB`. -/
def twoFriendA : Friend :=
  { id := 0, name := "H", whatsapp := "91", savedAmount := 0,
    totalBalance := 10, owedAmount := 0, lastUpdatedAt := 0 }

theorem deleteFriend_cascades_witness :
    (deleteFriend 0 twoFriendDB).2 = DeleteFriendResult.ok ∧
    (deleteFriend 0 twoFriendDB).1.txs.filter (fun t => t.friend == 0) = [] ∧
    (deleteFriend 0 twoFriendDB).1.txs.map Transaction.id = [2] :=
  ⟨(deleteFriend_cascades 0 twoFriendDB twoFriendA (by decide)).1,
   (deleteFriend_cascades 0 twoFriendDB twoFriendA (by decide)).2.1,
   by decide⟩

/-! ### Claim C10 -/

/-- Claim C10: the amend-loan handler applies a numeric `increment` with no
lower bound and no non-negativity check on the result — for a resolvable
entry of amount `a` it sets the stored amount to `a + i` for every integer
`i` — and when both an absolute `amount` and an `increment` are supplied the
absolute amount (checked non-negative) takes precedence and the increment is
ignored.  (The witness shows a concrete run in which the stored amount and,
after the recompute, the friend's `owedAmount` become negative.) -/
theorem patchLoan_increment_unbounded (now : Int) (txId : Nat) (i : Int)
    (br : Option String) (db : DB) (loan : Transaction)
    (hft : findTx txId db = some loan) :
    ((patchLoan now txId none (some (some i)) br db).2 = PatchResult.ok ∧
      ∀ t ∈ (patchLoan now txId none (some (some i)) br db).1.txs,
        t.id = txId → t.amount = loan.amount + i) ∧
    (∀ q : Int, 0 ≤ q →
      (patchLoan now txId (some (some q)) (some (some i)) br db).2 =
        PatchResult.ok ∧
      ∀ t ∈ (patchLoan now txId (some (some q)) (some (some i)) br db).1.txs,
        t.id = txId → t.amount = q) := by
  unfold patchLoan
  rw [hft]
  dsimp only
  constructor
  · refine ⟨rfl, ?_⟩
    intro t ht hid
    obtain ⟨u, hu, rfl⟩ := List.mem_map.mp ht
    by_cases he : u.id = txId
    · rw [if_pos he]
    · rw [if_neg he] at hid ⊢
      exact absurd hid he
  · intro q hq
    rw [if_neg (not_lt.mpr hq)]
    refine ⟨rfl, ?_⟩
    intro t ht hid
    obtain ⟨u, hu, rfl⟩ := List.mem_map.mp ht
    by_cases he : u.id = txId
    · rw [if_pos he]
    · rw [if_neg he] at hid ⊢
      exact absurd hid he

/-- One friend with a single loan entry of amount 5, for the C10 witness. -/
def smallLoanDB : DB :=
  { friends := [{ id := 0, name := "F", whatsapp := "91", savedAmount := 0,
                  totalBalance := 0, owedAmount := 5, lastUpdatedAt := 0 }],
    txs := [{ id := 0, friend := 0, type := TxType.loan, amount := 5,
              reason := "", note := none, date := 0, previousBalance := some 0,
              newBalance := some 5 }],
    nextFriendId := 1, nextTxId := 1 }

/-- The single loan entry of `smallLoanDB`. -/
def smallLoanTx : Transaction :=
  { id := 0, friend := 0, type := TxType.loan, amount := 5, reason := "",
    note := none, date := 0, previousBalance := some 0, newBalance := some 5 }

theorem patchLoan_increment_unbounded_witness :
    (patchLoan 2 0 none (some (some (-8))) none smallLoanDB).2 =
      PatchResult.ok ∧
    (patchLoan 2 0 none (some (some (-8))) none smallLoanDB).1.txs.map
      Transaction.amount = [-3] ∧
    (patchLoan 2 0 none (some (some (-8))) none smallLoanDB).1.friends.map
      Friend.owedAmount = [-3] ∧
    (patchLoan 2 0 (some (some 9)) (some (some (-8))) none smallLoanDB).1.txs.map
      Transaction.amount = [9] :=
  ⟨((patchLoan_increment_unbounded 2 0 (-8) none smallLoanDB smallLoanTx
      (by decide)).1).1,
   by decide, by decide, by decide⟩

end BalanceManager
